import Mathlib

/-!
Verification development for `server.py` of jMineWASM: an HTTPS static-file
server that provisions a self-signed certificate on first run and injects two
cross-origin-isolation headers on every response.

The embedding models the pieces of Python/OS semantics the program touches:

* a filesystem state (`FS`): a finite map from absolute paths to file contents,
  a set of directories, and a current working directory; `.` and `..` path
  normalisation is not modelled (no path in the program needs it);
* `os.path.exists`, `os.makedirs`, `os.chdir`, `os.path.abspath`;
* `subprocess.run(..., check=True)` with the external `openssl` tool modelled
  as an uninterpreted parameter `Gen` describing what the tool does to the
  filesystem (absent, or ran with some exit code and resulting filesystem);
* process termination (`PyExit`): an unhandled exception exits the interpreter
  with status 1; `sys.exit(n)` exits with status `n`; `sys.exit(msg)` prints
  the message and exits with status 1.

Observable actions (prints, tool invocations, directory changes, listener
creation, certificate loading) are recorded in an event trace `List Ev`.
-/

/-- File contents as a byte list. -/
abbrev Bytes := List Nat

/-- Filesystem state: files (absolute path to contents), directories
(absolute paths), and the current working directory. -/
structure FS where
  files : List (String × Bytes)
  dirs : List String
  cwd : String
deriving DecidableEq, Repr

/-- A path is absolute when it starts with a slash. -/
def isAbs (p : String) : Bool := p.data.head? == some '/'

/-- Path join (no normalisation). -/
def joinPath (a b : String) : String := a ++ "/" ++ b

/-- `os.path.abspath` against a given working directory. -/
def abspath (cwd p : String) : String := if isAbs p then p else joinPath cwd p

/-- Resolve a path against the filesystem's current working directory. -/
def FS.resolve (fs : FS) (p : String) : String := abspath fs.cwd p

/-- Contents of the file at `p` (resolved), if a file is there. -/
def FS.fileContent (fs : FS) (p : String) : Option Bytes :=
  fs.files.lookup (fs.resolve p)

/-- `os.path.exists`: true when a file or a directory is at the path. -/
def FS.pathExists (fs : FS) (p : String) : Bool :=
  (fs.files.lookup (fs.resolve p)).isSome || fs.dirs.contains (fs.resolve p)

/-- `os.makedirs(d, exist_ok=True)`: records the directory; never fails. -/
def FS.makedirs (fs : FS) (d : String) : FS :=
  { fs with dirs := fs.resolve d :: fs.dirs }

/-- `os.chdir`: changing to `.` keeps the state; changing to a directory
updates the working directory; a file raises NotADirectoryError and a missing
path raises FileNotFoundError (both unhandled in the program). -/
def FS.chdir (fs : FS) (p : String) : Except String FS :=
  if p = "." then .ok fs
  else
    let r := fs.resolve p
    if fs.dirs.contains r then .ok { fs with cwd := r }
    else if (fs.files.lookup r).isSome then .error "NotADirectoryError"
    else .error "FileNotFoundError"

/-- How the Python process terminates: an unhandled exception (interpreter
exits with status 1) or `sys.exit` with an explicit status. -/
inductive PyExit where
  | unhandled (exc : String)
  | systemExit (code : Nat)
deriving DecidableEq, Repr

/-- The process exit status of a termination. -/
def PyExit.status : PyExit → Nat
  | .unhandled _ => 1
  | .systemExit c => c

/-- Outcome of attempting to execute the external tool: the executable may be
absent, or it runs with some exit code and leaves the filesystem in a new
state. -/
inductive GenOutcome where
  | toolMissing
  | ran (exitCode : Nat) (fs : FS)
deriving DecidableEq, Repr

/-- Model of the external certificate-generation tool: a function from the
command line and the filesystem to an outcome. -/
abbrev Gen := List String → FS → GenOutcome

/-- `subprocess.run(args, check=True)`: a missing executable raises
FileNotFoundError; a non-zero exit raises CalledProcessError; otherwise the
tool's filesystem effects take place. -/
def subprocessRun (gen : Gen) (args : List String) (fs : FS) : Except PyExit FS :=
  match gen args fs with
  | .toolMissing => .error (.unhandled "FileNotFoundError")
  | .ran code fs' => if code ≠ 0 then .error (.unhandled "CalledProcessError") else .ok fs'

/-- Observable events of a run. -/
inductive Ev where
  | print (s : String)
  | mkdirs (d : String)
  | toolRun (args : List String)
  | chdirTo (d : String)
  | listen (host : String) (port : Int)
  | loadCertChain (certfile keyfile : String)
deriving DecidableEq, Repr

/-- `CERT_DIR = "cert"` (module constant). -/
def CERT_DIR : String := "cert"

/-- `CERT_FILE = os.path.abspath("cert/cert.pem")`, resolved against the
working directory `cwd0` current at module import. -/
def CERT_FILE (cwd0 : String) : String := abspath cwd0 (CERT_DIR ++ "/cert.pem")

/-- `KEY_FILE = os.path.abspath("cert/key.pem")`, resolved against the
working directory `cwd0` current at module import. -/
def KEY_FILE (cwd0 : String) : String := abspath cwd0 (CERT_DIR ++ "/key.pem")

/-- The argument list the program passes to `subprocess.run`. -/
def opensslArgs (cwd0 : String) : List String :=
  ["openssl", "req", "-x509", "-newkey", "rsa:2048",
   "-keyout", KEY_FILE cwd0, "-out", CERT_FILE cwd0,
   "-days", "365", "-nodes",
   "-subj", "/CN=localhost"]

/-- The existence check of `ensure_cert`:
`os.path.exists(CERT_FILE) and os.path.exists(KEY_FILE)`. -/
def bothCertsExist (cwd0 : String) (fs : FS) : Bool :=
  fs.pathExists (CERT_FILE cwd0) && fs.pathExists (KEY_FILE cwd0)

/-- `ensure_cert()`: make the cert directory; if either file is missing, print
a notice and run openssl (`check=True`, so a missing tool or non-zero exit
propagates as an unhandled exception); afterwards, if either file is still
missing, `sys.exit` with an error message (status 1). Returns the resulting
filesystem on normal return, paired with the event trace. -/
def ensure_cert (gen : Gen) (cwd0 : String) (fs : FS) : Except PyExit FS × List Ev :=
  let fs1 := fs.makedirs CERT_DIR
  let evs0 : List Ev := [.mkdirs (fs.resolve CERT_DIR)]
  let (step, evs1) :=
    if !(bothCertsExist cwd0 fs1) then
      match subprocessRun gen (opensslArgs cwd0) fs1 with
      | .error e =>
          (Except.error e,
           [Ev.print "🔒 Generating self-signed certificate...", Ev.toolRun (opensslArgs cwd0)])
      | .ok fs2 =>
          (Except.ok fs2,
           [Ev.print "🔒 Generating self-signed certificate...", Ev.toolRun (opensslArgs cwd0)])
    else (Except.ok fs1, [])
  match step with
  | .error e => (.error e, evs0 ++ evs1)
  | .ok fs2 =>
      if !(bothCertsExist cwd0 fs2) then
        (.error (.systemExit 1), evs0 ++ evs1 ++ [.print "❌ Failed to generate certificate."])
      else (.ok fs2, evs0 ++ evs1)

/-- Number of external tool invocations recorded in a trace. -/
def countToolRuns (evs : List Ev) : Nat :=
  (evs.filter fun e => match e with | .toolRun _ => true | _ => false).length

/-! ### The server: `run(port)` -/

/-- Whether binding the TCP listener succeeds; a failure (port in use,
permission denied) raises an unhandled exception. -/
inductive BindOutcome where
  | success
  | failure (exc : String)
deriving DecidableEq, Repr

/-- What happens inside `serve_forever()`: either the loop runs forever, or a
KeyboardInterrupt arrives. -/
inductive ServeBehavior where
  | forever
  | interrupt
deriving DecidableEq, Repr

/-- The server configuration once the listener is up: bind address, the
certificate and key paths handed to `load_cert_chain`, the document root the
handler serves from, and the filesystem state at listener creation. -/
structure ServerUp where
  host : String
  port : Int
  certfile : String
  keyfile : String
  docRoot : String
  fsAtListen : FS
deriving DecidableEq, Repr

/-- Outcome of `run(port)`: a fatal termination before serving, serving
forever, or stopped by a KeyboardInterrupt. -/
inductive Outcome where
  | fatal (e : PyExit)
  | running (up : ServerUp)
  | stopped (up : ServerUp) (e : PyExit)
deriving DecidableEq, Repr

/-- The server configuration, when the run got as far as creating it. -/
def Outcome.up? : Outcome → Option ServerUp
  | .fatal _ => none
  | .running u => some u
  | .stopped u _ => some u

/-- The process exit status of an outcome (`none` when serving forever). -/
def Outcome.exitCode : Outcome → Option Nat
  | .fatal e => some e.status
  | .running _ => none
  | .stopped _ e => some e.status

/-- The startup banner printed once the server is listening. -/
def startupPrints (port : Int) : List Ev :=
  [.print "🚀 HTTPS server running on all interfaces at:",
   .print ("   → https://localhost:" ++ toString port ++ "/"),
   .print ("   → https://127.0.0.1:" ++ toString port ++ "/"),
   .print ("   → https://<your LAN IP>:" ++ toString port ++ "/  (e.g. from another device)")]

/-- `run(port)`: provision the certificate, `os.chdir("build" if
os.path.exists("build") else ".")`, build the handler with
`directory=os.getcwd()`, create the `ThreadingTCPServer` on `("0.0.0.0",
port)`, load the certificate chain from `CERT_FILE`/`KEY_FILE`, wrap the
socket, print the banner, and serve until interrupted; a KeyboardInterrupt
prints a notice and calls `sys.exit(0)`. -/
def run (port : Int) (gen : Gen) (cwd0 : String) (fs : FS)
    (bind : BindOutcome) (serve : ServeBehavior) : Outcome × List Ev :=
  match ensure_cert gen cwd0 fs with
  | (.error e, evs) => (.fatal e, evs)
  | (.ok fs2, evs) =>
    let target := if fs2.pathExists "build" then "build" else "."
    match fs2.chdir target with
    | .error exc => (.fatal (.unhandled exc), evs)
    | .ok fs3 =>
      let evs2 := evs ++ [Ev.chdirTo target]
      match bind with
      | .failure exc => (.fatal (.unhandled exc), evs2)
      | .success =>
        let evs3 := evs2 ++ [Ev.listen "0.0.0.0" port,
                             Ev.loadCertChain (CERT_FILE cwd0) (KEY_FILE cwd0)]
                         ++ startupPrints port
        let up : ServerUp :=
          { host := "0.0.0.0", port := port,
            certfile := CERT_FILE cwd0, keyfile := KEY_FILE cwd0,
            docRoot := fs3.cwd, fsAtListen := fs3 }
        match serve with
        | .forever => (.running up, evs3)
        | .interrupt => (.stopped up (.systemExit 0), evs3 ++ [Ev.print "\n🛑 Server stopped."])

/-! ### The request handler: header injection -/

/-- The handler's in-progress response state: the buffered headers, in the
order `send_header` wrote them. -/
structure HandlerState where
  headersBuffer : List (String × String)
deriving DecidableEq, Repr

/-- `send_header(k, v)` appends the header to the buffer. -/
def sendHeader (h : HandlerState) (k v : String) : HandlerState :=
  { headersBuffer := h.headersBuffer ++ [(k, v)] }

/-- `SimpleHTTPRequestHandler.end_headers` (the base class): flush the
buffered headers onto the wire, in buffer order. -/
def baseEndHeaders (h : HandlerState) : List (String × String) :=
  h.headersBuffer

/-- The overridden `Handler.end_headers`: send the two cross-origin-isolation
headers, then delegate to the base class, which flushes the buffer. -/
def Handler.endHeaders (h : HandlerState) : List (String × String) :=
  baseEndHeaders
    (sendHeader
      (sendHeader h "Cross-Origin-Opener-Policy" "same-origin")
      "Cross-Origin-Embedder-Policy" "require-corp")

/-- A finished response: status code and wire headers. -/
structure HttpResponse where
  status : Nat
  headers : List (String × String)
deriving DecidableEq, Repr

/-- Any response the handler produces: the base static-file logic picks a
status code and buffers whatever headers it wants (status line, Server, Date,
Content-type, ... for a success; error headers for a 404), then calls
`end_headers`, which is the override. -/
def respond (status : Nat) (baseHeaders : List (String × String)) : HttpResponse :=
  { status := status, headers := Handler.endHeaders { headersBuffer := baseHeaders } }

/-- `SimpleHTTPRequestHandler.translate_path` for a plain URL path, relative
to the handler's `directory` (query strings and dot-segment filtering are not
exercised by the modelled requests). -/
def translate_path (directory urlPath : String) : String :=
  directory ++ urlPath

/-- The file contents the static handler would serve for a URL path. -/
def servedFile (fs : FS) (directory urlPath : String) : Option Bytes :=
  fs.files.lookup (translate_path directory urlPath)

/-! ### The CLI: `__main__` -/

/-- Value of a list of decimal digit characters, or `none` when empty or
containing a non-digit. -/
def digitsVal? (l : List Char) : Option Nat :=
  if l ≠ [] && l.all Char.isDigit then
    some (l.foldl (fun a c => a * 10 + (c.toNat - 48)) 0)
  else none

/-- Python `int()` on a string: an optional sign followed by decimal digits
(surrounding whitespace and underscores are not modelled; no modelled claim
passes them). -/
def pyInt? (s : String) : Option Int :=
  match s.data with
  | '-' :: rest => (digitsVal? rest).map (fun n => -(n : Int))
  | '+' :: rest => (digitsVal? rest).map (fun n => (n : Int))
  | l => (digitsVal? l).map (fun n => (n : Int))

/-- Result of argparse's `parse_args`: a parsed port, the automatic
help option (prints usage and exits with status 0), or a usage error (exits
with status 2). -/
inductive ArgsResult where
  | ok (port : Int)
  | helpExit
  | usageError
deriving DecidableEq, Repr

/-- The behaviour of the parser built in `__main__`: an
`ArgumentParser()` (so the automatic `-h`/`--help` option is present) with the
single option `-p`/`--port`, `type=int`, `default=8443`. Option values are
parsed with Python `int()`; an unknown token, a missing option value, or a
non-integer value is a usage error. (Long-option abbreviation and `--port=N`
spelling are not modelled; no modelled claim mentions them.) -/
def parseLoop : List String → Int → ArgsResult
  | [], acc => .ok acc
  | a :: rest, _acc =>
    if a = "-h" || a = "--help" then .helpExit
    else if a = "-p" || a = "--port" then
      match rest with
      | [] => .usageError
      | v :: rest2 =>
        match pyInt? v with
        | some n => parseLoop rest2 n
        | none => .usageError
    else .usageError

/-- `parse_args` for the program's parser: default port 8443. -/
def parse_args (argv : List String) : ArgsResult :=
  parseLoop argv 8443

/-- Result of the whole program: terminated while parsing arguments (help
exits 0, a usage error exits 2), or ran the server. -/
inductive MainResult where
  | usage (exitCode : Nat)
  | ran (o : Outcome) (evs : List Ev)
deriving DecidableEq, Repr

/-- The `__main__` block: parse the arguments and call `run(args.port)`. -/
def mainEntry (argv : List String) (gen : Gen) (cwd0 : String) (fs : FS)
    (bind : BindOutcome) (serve : ServeBehavior) : MainResult :=
  match parse_args argv with
  | .helpExit => .usage 0
  | .usageError => .usage 2
  | .ok port =>
    let (o, evs) := run port gen cwd0 fs bind serve
    .ran o evs

/-! ### Concrete fixtures used by witnesses and counterexamples -/

/-- A working directory holding a valid-looking certificate pair. -/
def fsHasCerts : FS :=
  { files := [("/w/cert/cert.pem", [1]), ("/w/cert/key.pem", [2])],
    dirs := ["/w"], cwd := "/w" }

/-- A working directory holding an empty certificate pair (both files exist,
both have zero bytes). -/
def fsEmptyCerts : FS :=
  { files := [("/w/cert/cert.pem", []), ("/w/cert/key.pem", [])],
    dirs := ["/w"], cwd := "/w" }

/-- A fresh working directory: no certificate files at all. -/
def fsFresh : FS := { files := [], dirs := ["/w"], cwd := "/w" }

/-- A tool model that exits 0 and writes the two certificate files, as the
real openssl invocation does. -/
def genOk : Gen := fun _ fs =>
  .ran 0 { fs with files := ("/w/cert/cert.pem", [67]) :: ("/w/cert/key.pem", [75]) :: fs.files }

/-- A tool model for a machine with no openssl executable. -/
def genMissing : Gen := fun _ _ => .toolMissing

/-- The filesystem `ensure_cert` produces on a fresh run of the `genOk`
fixture. -/
def fsFreshGen : FS :=
  { files := [("/w/cert/cert.pem", [67]), ("/w/cert/key.pem", [75])],
    dirs := ["/w/cert", "/w"], cwd := "/w" }

/-- A working directory where `build` exists but is a regular file, holding a
certificate pair and an `index.html`. -/
def fsBuildFile : FS :=
  { files := [("/w/cert/cert.pem", [1]), ("/w/cert/key.pem", [2]),
              ("/w/build", [0]), ("/w/index.html", [7])],
    dirs := ["/w"], cwd := "/w" }

/-- A working directory with a `build` directory whose `index.html` differs
from the working directory's own copy. -/
def fsBuildDir : FS :=
  { files := [("/w/cert/cert.pem", [1]), ("/w/cert/key.pem", [2]),
              ("/w/build/index.html", [42]), ("/w/index.html", [7])],
    dirs := ["/w/build", "/w"], cwd := "/w" }

/-- The events emitted when the generation branch is taken. -/
def genTrace (fs : FS) (cwd0 : String) : List Ev :=
  [.mkdirs (fs.resolve CERT_DIR),
   .print "🔒 Generating self-signed certificate...",
   .toolRun (opensslArgs cwd0)]

/-- `hasPair args x y`: `y` immediately follows `x` in the argument list. -/
def hasPair (args : List String) (x y : String) : Prop :=
  (x, y) ∈ args.zip args.tail

/-- The server configuration reached from `fsHasCerts` on port 8443 (used to
state concrete witnesses). -/
def upHasCerts : ServerUp :=
  { host := "0.0.0.0", port := 8443,
    certfile := CERT_FILE "/w", keyfile := KEY_FILE "/w",
    docRoot := "/w", fsAtListen := fsHasCerts.makedirs CERT_DIR }

/-- The server configuration reached from `fsBuildDir` on port 8443: the
working directory has changed into the `build` directory. -/
def upBuildDir : ServerUp :=
  { host := "0.0.0.0", port := 8443,
    certfile := CERT_FILE "/w", keyfile := KEY_FILE "/w",
    docRoot := "/w/build",
    fsAtListen := { files := fsBuildDir.files,
                    dirs := "/w/cert" :: fsBuildDir.dirs,
                    cwd := "/w/build" } }

/-! ### Helper lemmas about the filesystem model -/

theorem makedirs_files (fs : FS) (d : String) : (fs.makedirs d).files = fs.files := rfl

theorem makedirs_cwd (fs : FS) (d : String) : (fs.makedirs d).cwd = fs.cwd := rfl

theorem abspath_of_isAbs {p : String} (c : String) (h : isAbs p = true) :
    abspath c p = p := by
  simp [abspath, h]

theorem isAbs_append (a b : String) (h : isAbs a = true) : isAbs (a ++ b) = true := by
  unfold isAbs at h ⊢
  rcases a with ⟨l⟩
  cases l with
  | nil => simp at h
  | cons c t =>
    simp only [String.data] at h
    have : (String.mk (c :: t) ++ b).data = c :: (t ++ b.data) := by
      simp [String.data_append]
    simp [this]
    simpa using h

theorem isAbs_joinPath (a b : String) (h : isAbs a = true) :
    isAbs (joinPath a b) = true := by
  unfold joinPath
  exact isAbs_append _ _ (isAbs_append _ _ h)

/-- `pathExists` at an absolute path ignores the working directory and depends
only on the files and directories. -/
theorem pathExists_abs {p : String} (fs fs' : FS) (h : isAbs p = true)
    (hf : fs'.files = fs.files) (hd : fs'.dirs = fs.dirs) :
    fs'.pathExists p = fs.pathExists p := by
  simp [FS.pathExists, FS.resolve, abspath, h, hf, hd]

theorem fileContent_abs {p : String} (fs fs' : FS) (h : isAbs p = true)
    (hf : fs'.files = fs.files) :
    fs'.fileContent p = fs.fileContent p := by
  simp [FS.fileContent, FS.resolve, abspath, h, hf]

theorem CERT_FILE_isAbs (cwd0 : String) (h : isAbs cwd0 = true) :
    isAbs (CERT_FILE cwd0) = true := by
  unfold CERT_FILE abspath
  have : isAbs (CERT_DIR ++ "/cert.pem") = false := by decide
  rw [this]
  simp only [Bool.false_eq_true, if_false]
  exact isAbs_joinPath _ _ h

theorem KEY_FILE_isAbs (cwd0 : String) (h : isAbs cwd0 = true) :
    isAbs (KEY_FILE cwd0) = true := by
  unfold KEY_FILE abspath
  have : isAbs (CERT_DIR ++ "/key.pem") = false := by decide
  rw [this]
  simp only [Bool.false_eq_true, if_false]
  exact isAbs_joinPath _ _ h

/-- A successful `chdir` changes only the working directory. -/
theorem chdir_ok_frame {fs fs' : FS} {t : String} (h : fs.chdir t = .ok fs') :
    fs'.files = fs.files ∧ fs'.dirs = fs.dirs := by
  unfold FS.chdir at h
  dsimp only at h
  split at h
  · cases h; exact ⟨rfl, rfl⟩
  · split at h
    · cases h; exact ⟨rfl, rfl⟩
    · split at h <;> cases h

/-- `chdir` to `.` is the identity. -/
theorem chdir_dot (fs : FS) : fs.chdir "." = .ok fs := by
  rw [FS.chdir]
  simp

/-- `chdir` into an existing directory updates the working directory. -/
theorem chdir_dir {fs : FS} {p : String} (hne : ¬(p = "."))
    (hc : fs.dirs.contains (fs.resolve p) = true) :
    fs.chdir p = .ok { fs with cwd := fs.resolve p } := by
  rw [FS.chdir, if_neg hne]
  dsimp only
  rw [hc]
  simp

/-! ### Helper lemmas about `ensure_cert` -/

/-- When both files already exist, `ensure_cert` returns the post-`makedirs`
state and makes no tool call. -/
theorem ensure_cert_already (gen : Gen) {cwd0 : String} {fs : FS}
    (hb : bothCertsExist cwd0 (fs.makedirs CERT_DIR) = true) :
    ensure_cert gen cwd0 fs =
      (.ok (fs.makedirs CERT_DIR), [.mkdirs (fs.resolve CERT_DIR)]) := by
  simp [ensure_cert, hb]

/-- Generation branch, tool missing: FileNotFoundError propagates. -/
theorem ensure_cert_toolMissing (gen : Gen) {cwd0 : String} {fs : FS}
    (hb : bothCertsExist cwd0 (fs.makedirs CERT_DIR) = false)
    (hg : gen (opensslArgs cwd0) (fs.makedirs CERT_DIR) = .toolMissing) :
    ensure_cert gen cwd0 fs =
      (.error (.unhandled "FileNotFoundError"), genTrace fs cwd0) := by
  simp [ensure_cert, hb, hg, subprocessRun, genTrace]

/-- Generation branch, tool exits non-zero: CalledProcessError propagates. -/
theorem ensure_cert_nonzeroExit (gen : Gen) {cwd0 : String} {fs : FS} {c : Nat} {fs2 : FS}
    (hb : bothCertsExist cwd0 (fs.makedirs CERT_DIR) = false)
    (hg : gen (opensslArgs cwd0) (fs.makedirs CERT_DIR) = .ran c fs2)
    (hc : c ≠ 0) :
    ensure_cert gen cwd0 fs =
      (.error (.unhandled "CalledProcessError"), genTrace fs cwd0) := by
  simp [ensure_cert, hb, hg, subprocessRun, hc, genTrace]

/-- Generation branch, tool exits 0 but the files are still absent:
`sys.exit` with the error message, status 1. -/
theorem ensure_cert_stillMissing (gen : Gen) {cwd0 : String} {fs : FS} {fs2 : FS}
    (hb : bothCertsExist cwd0 (fs.makedirs CERT_DIR) = false)
    (hg : gen (opensslArgs cwd0) (fs.makedirs CERT_DIR) = .ran 0 fs2)
    (h2 : bothCertsExist cwd0 fs2 = false) :
    ensure_cert gen cwd0 fs =
      (.error (.systemExit 1),
       genTrace fs cwd0 ++ [.print "❌ Failed to generate certificate."]) := by
  simp [ensure_cert, hb, hg, subprocessRun, h2, genTrace]

/-- Generation branch, tool exits 0 and both files are now present. -/
theorem ensure_cert_generated (gen : Gen) {cwd0 : String} {fs : FS} {fs2 : FS}
    (hb : bothCertsExist cwd0 (fs.makedirs CERT_DIR) = false)
    (hg : gen (opensslArgs cwd0) (fs.makedirs CERT_DIR) = .ran 0 fs2)
    (h2 : bothCertsExist cwd0 fs2 = true) :
    ensure_cert gen cwd0 fs = (.ok fs2, genTrace fs cwd0) := by
  simp [ensure_cert, hb, hg, subprocessRun, h2, genTrace]

/-- On normal return of `ensure_cert`, the existence check holds on the
resulting filesystem. -/
theorem ensure_cert_ok_exists {gen : Gen} {cwd0 : String} {fs fs' : FS} {evs : List Ev}
    (h : ensure_cert gen cwd0 fs = (.ok fs', evs)) :
    bothCertsExist cwd0 fs' = true := by
  rcases hb : bothCertsExist cwd0 (fs.makedirs CERT_DIR) with _ | _
  · rcases hg : gen (opensslArgs cwd0) (fs.makedirs CERT_DIR) with _ | ⟨c, fs2⟩
    · rw [ensure_cert_toolMissing gen hb hg] at h
      cases h
    · rcases hc : c with _ | c'
      · subst hc
        rcases h2 : bothCertsExist cwd0 fs2 with _ | _
        · rw [ensure_cert_stillMissing gen hb hg h2] at h
          cases h
        · rw [ensure_cert_generated gen hb hg h2] at h
          cases h
          exact h2
      · subst hc
        rw [ensure_cert_nonzeroExit gen hb hg (Nat.succ_ne_zero c')] at h
        cases h
  · rw [ensure_cert_already gen hb] at h
    cases h
    exact hb

/-- Every fatal termination of `ensure_cert` has exit status 1. -/
theorem ensure_cert_error_status {gen : Gen} {cwd0 : String} {fs : FS} {e : PyExit}
    {evs : List Ev} (h : ensure_cert gen cwd0 fs = (.error e, evs)) :
    e.status = 1 := by
  rcases hb : bothCertsExist cwd0 (fs.makedirs CERT_DIR) with _ | _
  · rcases hg : gen (opensslArgs cwd0) (fs.makedirs CERT_DIR) with _ | ⟨c, fs2⟩
    · rw [ensure_cert_toolMissing gen hb hg] at h
      cases h; rfl
    · rcases hc : c with _ | c'
      · subst hc
        rcases h2 : bothCertsExist cwd0 fs2 with _ | _
        · rw [ensure_cert_stillMissing gen hb hg h2] at h
          cases h; rfl
        · rw [ensure_cert_generated gen hb hg h2] at h
          cases h
      · subst hc
        rw [ensure_cert_nonzeroExit gen hb hg (Nat.succ_ne_zero c')] at h
        cases h; rfl
  · rw [ensure_cert_already gen hb] at h
    cases h

/-- The trace of `ensure_cert` contains a tool invocation exactly when the
existence check failed, and every recorded invocation carries the openssl
command line. -/
theorem ensure_cert_toolRuns (gen : Gen) (cwd0 : String) (fs : FS) :
    countToolRuns (ensure_cert gen cwd0 fs).2 =
      (if bothCertsExist cwd0 (fs.makedirs CERT_DIR) then 0 else 1) ∧
    ∀ args, Ev.toolRun args ∈ (ensure_cert gen cwd0 fs).2 → args = opensslArgs cwd0 := by
  rcases hb : bothCertsExist cwd0 (fs.makedirs CERT_DIR) with _ | _
  · rcases hg : gen (opensslArgs cwd0) (fs.makedirs CERT_DIR) with _ | ⟨c, fs2⟩
    · rw [ensure_cert_toolMissing gen hb hg]
      refine ⟨by simp [countToolRuns, genTrace], ?_⟩
      intro args hm
      simp [genTrace] at hm
      exact hm
    · rcases hc : c with _ | c'
      · subst hc
        rcases h2 : bothCertsExist cwd0 fs2 with _ | _
        · rw [ensure_cert_stillMissing gen hb hg h2]
          refine ⟨by simp [countToolRuns, genTrace], ?_⟩
          intro args hm
          simp [genTrace] at hm
          exact hm
        · rw [ensure_cert_generated gen hb hg h2]
          refine ⟨by simp [countToolRuns, genTrace], ?_⟩
          intro args hm
          simp [genTrace] at hm
          exact hm
      · subst hc
        rw [ensure_cert_nonzeroExit gen hb hg (Nat.succ_ne_zero c')]
        refine ⟨by simp [countToolRuns, genTrace], ?_⟩
        intro args hm
        simp [genTrace] at hm
        exact hm
  · rw [ensure_cert_already gen hb]
    refine ⟨by simp [countToolRuns], ?_⟩
    intro args hm
    simp [countToolRuns] at hm


/-! ### Claim theorems -/

/-- C1: for every HTTP response the server produces — whatever status code
and whatever headers the base static-file-serving logic buffered for the
requested path — the wire headers include both
`Cross-Origin-Opener-Policy: same-origin` and
`Cross-Origin-Embedder-Policy: require-corp`, and the two are appended after
all headers the base logic set. -/
theorem claim1_isolation_headers_every_response (status : Nat)
    (base : List (String × String)) :
    ("Cross-Origin-Opener-Policy", "same-origin") ∈ (respond status base).headers ∧
    ("Cross-Origin-Embedder-Policy", "require-corp") ∈ (respond status base).headers ∧
    (respond status base).headers =
      base ++ [("Cross-Origin-Opener-Policy", "same-origin"),
               ("Cross-Origin-Embedder-Policy", "require-corp")] := by
  refine ⟨?_, ?_, ?_⟩ <;>
    simp [respond, Handler.endHeaders, sendHeader, baseEndHeaders]

/-- C2 (amended): for every run of `ensure_cert` that returns normally, after
return both the certificate file and the key file exist; the code checks
existence only, so non-emptiness is not guaranteed. -/
theorem claim2_files_exist_after_return (gen : Gen) (cwd0 : String) (fs fs' : FS)
    (evs : List Ev) (h : ensure_cert gen cwd0 fs = (.ok fs', evs)) :
    fs'.pathExists (CERT_FILE cwd0) = true ∧
    fs'.pathExists (KEY_FILE cwd0) = true := by
  have hb := ensure_cert_ok_exists h
  unfold bothCertsExist at hb
  simpa [Bool.and_eq_true] using hb

/-- C2 witness: a fresh run with a well-behaved tool returns normally and
leaves both files existing. -/
theorem claim2_files_exist_after_return_witness :
    fsFreshGen.pathExists (CERT_FILE "/w") = true ∧
    fsFreshGen.pathExists (KEY_FILE "/w") = true :=
  claim2_files_exist_after_return genOk "/w" fsFresh fsFreshGen
    (genTrace fsFresh "/w") (by rfl)

/-- C2 counterexample: `ensure_cert` returns normally on a state where both
certificate files exist but are empty (zero bytes) — even with no
certificate-generation tool on the machine — so "after return both files are
non-empty" is false as stated. -/
theorem claim2_counterexample :
    (ensure_cert genMissing "/w" fsEmptyCerts).1 =
      .ok (fsEmptyCerts.makedirs CERT_DIR) ∧
    (fsEmptyCerts.makedirs CERT_DIR).fileContent (CERT_FILE "/w") = some [] ∧
    (fsEmptyCerts.makedirs CERT_DIR).fileContent (KEY_FILE "/w") = some [] :=
  ⟨rfl, rfl, rfl⟩

/-- C4: when both certificate files already exist, `ensure_cert` makes no
external tool call and leaves the file map — in particular the contents of
both files — byte-for-byte unchanged. -/
theorem claim4_no_call_when_files_exist (gen : Gen) (cwd0 : String) (fs : FS)
    (hb : bothCertsExist cwd0 (fs.makedirs CERT_DIR) = true) :
    ∃ evs, ensure_cert gen cwd0 fs = (.ok (fs.makedirs CERT_DIR), evs) ∧
      countToolRuns evs = 0 ∧
      (fs.makedirs CERT_DIR).files = fs.files ∧
      (fs.makedirs CERT_DIR).fileContent (CERT_FILE cwd0) =
        fs.fileContent (CERT_FILE cwd0) ∧
      (fs.makedirs CERT_DIR).fileContent (KEY_FILE cwd0) =
        fs.fileContent (KEY_FILE cwd0) := by
  refine ⟨_, ensure_cert_already gen hb, ?_, rfl, rfl, rfl⟩
  simp [countToolRuns]

/-- C4 witness: on a state with an existing pair, the provisioner succeeds
untouched even when no tool is installed. -/
theorem claim4_no_call_witness :
    bothCertsExist "/w" (fsHasCerts.makedirs CERT_DIR) = true ∧
    (∃ evs, ensure_cert genMissing "/w" fsHasCerts =
        (.ok (fsHasCerts.makedirs CERT_DIR), evs) ∧
      countToolRuns evs = 0 ∧
      (fsHasCerts.makedirs CERT_DIR).files = fsHasCerts.files ∧
      (fsHasCerts.makedirs CERT_DIR).fileContent (CERT_FILE "/w") =
        fsHasCerts.fileContent (CERT_FILE "/w") ∧
      (fsHasCerts.makedirs CERT_DIR).fileContent (KEY_FILE "/w") =
        fsHasCerts.fileContent (KEY_FILE "/w")) :=
  ⟨by rfl, claim4_no_call_when_files_exist genMissing "/w" fsHasCerts (by rfl)⟩

/-- Whenever the generation branch is taken, the openssl invocation is in the
trace, for every behaviour of the external tool. -/
theorem ensure_cert_toolRun_mem (gen : Gen) {cwd0 : String} {fs : FS}
    (hb : bothCertsExist cwd0 (fs.makedirs CERT_DIR) = false) :
    Ev.toolRun (opensslArgs cwd0) ∈ (ensure_cert gen cwd0 fs).2 := by
  rcases hg : gen (opensslArgs cwd0) (fs.makedirs CERT_DIR) with _ | ⟨c, fs2⟩
  · rw [ensure_cert_toolMissing gen hb hg]
    simp [genTrace]
  · rcases hc : c with _ | c'
    · subst hc
      rcases h2 : bothCertsExist cwd0 fs2 with _ | _
      · rw [ensure_cert_stillMissing gen hb hg h2]
        simp [genTrace]
      · rw [ensure_cert_generated gen hb hg h2]
        simp [genTrace]
    · subst hc
      rw [ensure_cert_nonzeroExit gen hb hg (Nat.succ_ne_zero c')]
      simp [genTrace]

/-- Inversion for a run that created the listener: the provisioner returned
normally, the bind succeeded, the state at listen time is reached from the
provisioner's state by the single `chdir`, and the recorded configuration
carries the module-level certificate paths. -/
theorem run_up_inv {port : Int} {gen : Gen} {cwd0 : String} {fs : FS}
    {bind : BindOutcome} {serve : ServeBehavior} {up : ServerUp}
    (h : ((run port gen cwd0 fs bind serve).1).up? = some up) :
    ∃ fs2 evs, ensure_cert gen cwd0 fs = (.ok fs2, evs) ∧
      bind = .success ∧
      fs2.chdir (if fs2.pathExists "build" then "build" else ".") = .ok up.fsAtListen ∧
      up.host = "0.0.0.0" ∧ up.port = port ∧
      up.certfile = CERT_FILE cwd0 ∧ up.keyfile = KEY_FILE cwd0 ∧
      up.docRoot = up.fsAtListen.cwd ∧
      (∃ evs2, (run port gen cwd0 fs bind serve).2 =
        evs ++ Ev.chdirTo (if fs2.pathExists "build" then "build" else ".") :: evs2 ∧
        Ev.loadCertChain (CERT_FILE cwd0) (KEY_FILE cwd0) ∈ evs2) := by
  rcases hec : ensure_cert gen cwd0 fs with ⟨step, evs⟩
  cases step with
  | error e => simp [run, hec, Outcome.up?] at h
  | ok fs2 =>
    cases hch : fs2.chdir (if fs2.pathExists "build" then "build" else ".") with
    | error exc => simp [run, hec, hch, Outcome.up?] at h
    | ok fs3 =>
      cases bind with
      | failure exc => simp [run, hec, hch, Outcome.up?] at h
      | success =>
        cases serve with
        | forever =>
          simp only [run, hec, hch, Outcome.up?, Option.some.injEq] at h
          subst h
          refine ⟨fs2, evs, rfl, rfl, hch, rfl, rfl, rfl, rfl, rfl,
            Ev.listen "0.0.0.0" port ::
              Ev.loadCertChain (CERT_FILE cwd0) (KEY_FILE cwd0) ::
              startupPrints port, ?_, ?_⟩
          · simp [run, hec, hch, startupPrints]
          · simp
        | interrupt =>
          simp only [run, hec, hch, Outcome.up?, Option.some.injEq] at h
          subst h
          refine ⟨fs2, evs, rfl, rfl, hch, rfl, rfl, rfl, rfl, rfl,
            Ev.listen "0.0.0.0" port ::
              Ev.loadCertChain (CERT_FILE cwd0) (KEY_FILE cwd0) ::
              (startupPrints port ++ [Ev.print "\n🛑 Server stopped."]), ?_, ?_⟩
          · simp [run, hec, hch, startupPrints]
          · simp

/-- C3: if generation fails in any of the three ways — tool missing, tool
exits non-zero, or both files still absent after a zero exit — `ensure_cert`
terminates the process with a fatal error of non-zero exit status, after a
single generation attempt (no retry), and a `run` with these inputs is fatal
before any listener is created (no fallback to serving). -/
theorem claim3_generation_failure_fatal (gen : Gen) (cwd0 : String) (fs : FS)
    (hb : bothCertsExist cwd0 (fs.makedirs CERT_DIR) = false)
    (hbad : gen (opensslArgs cwd0) (fs.makedirs CERT_DIR) = .toolMissing ∨
            (∃ c fs2, gen (opensslArgs cwd0) (fs.makedirs CERT_DIR) = .ran c fs2 ∧ c ≠ 0) ∨
            (∃ fs2, gen (opensslArgs cwd0) (fs.makedirs CERT_DIR) = .ran 0 fs2 ∧
              bothCertsExist cwd0 fs2 = false)) :
    ∃ e evs, ensure_cert gen cwd0 fs = (.error e, evs) ∧
      e.status ≠ 0 ∧
      countToolRuns evs = 1 ∧
      (∀ h p, Ev.listen h p ∉ evs) ∧
      (∀ port bind serve, run port gen cwd0 fs bind serve = (.fatal e, evs)) := by
  have key : ∃ e evs, ensure_cert gen cwd0 fs = (.error e, evs) ∧
      e.status ≠ 0 ∧ countToolRuns evs = 1 ∧ (∀ h p, Ev.listen h p ∉ evs) := by
    rcases hbad with hg | ⟨c, fs2, hg, hc⟩ | ⟨fs2, hg, h2⟩
    · refine ⟨_, _, ensure_cert_toolMissing gen hb hg, by simp [PyExit.status],
        by simp [countToolRuns, genTrace], ?_⟩
      intro h p hm
      simp [genTrace] at hm
    · refine ⟨_, _, ensure_cert_nonzeroExit gen hb hg hc, by simp [PyExit.status],
        by simp [countToolRuns, genTrace], ?_⟩
      intro h p hm
      simp [genTrace] at hm
    · refine ⟨_, _, ensure_cert_stillMissing gen hb hg h2, by simp [PyExit.status],
        by simp [countToolRuns, genTrace], ?_⟩
      intro h p hm
      simp [genTrace] at hm
  obtain ⟨e, evs, he, hs, hcnt, hnl⟩ := key
  exact ⟨e, evs, he, hs, hcnt, hnl, fun port bind serve => by simp [run, he]⟩

/-- C3 witness: a fresh directory on a machine with no openssl executable. -/
theorem claim3_generation_failure_witness :
    bothCertsExist "/w" (fsFresh.makedirs CERT_DIR) = false ∧
    (∃ e evs, ensure_cert genMissing "/w" fsFresh = (.error e, evs) ∧
      e.status ≠ 0 ∧
      countToolRuns evs = 1 ∧
      (∀ h p, Ev.listen h p ∉ evs) ∧
      (∀ port bind serve, run port genMissing "/w" fsFresh bind serve = (.fatal e, evs))) :=
  ⟨by rfl, claim3_generation_failure_fatal genMissing "/w" fsFresh (by rfl) (Or.inl rfl)⟩

/-- C7: whenever the generation branch is taken, the recorded external
invocation is exactly the openssl command line, which requests a 2048-bit RSA
key (`-newkey rsa:2048`), a self-signed certificate (`-x509`) valid 365 days
(`-days 365`) with subject common name localhost (`-subj /CN=localhost`), no
key passphrase (`-nodes`), written to the module-level key and certificate
paths (`-keyout`, `-out`). -/
theorem claim7_openssl_invocation (gen : Gen) (cwd0 : String) (fs : FS)
    (hb : bothCertsExist cwd0 (fs.makedirs CERT_DIR) = false) :
    Ev.toolRun (opensslArgs cwd0) ∈ (ensure_cert gen cwd0 fs).2 ∧
    (∀ args, Ev.toolRun args ∈ (ensure_cert gen cwd0 fs).2 → args = opensslArgs cwd0) ∧
    hasPair (opensslArgs cwd0) "-newkey" "rsa:2048" ∧
    "-x509" ∈ opensslArgs cwd0 ∧
    hasPair (opensslArgs cwd0) "-days" "365" ∧
    "-nodes" ∈ opensslArgs cwd0 ∧
    hasPair (opensslArgs cwd0) "-subj" "/CN=localhost" ∧
    hasPair (opensslArgs cwd0) "-keyout" (KEY_FILE cwd0) ∧
    hasPair (opensslArgs cwd0) "-out" (CERT_FILE cwd0) := by
  refine ⟨ensure_cert_toolRun_mem gen hb, (ensure_cert_toolRuns gen cwd0 fs).2,
    ?_, ?_, ?_, ?_, ?_, ?_, ?_⟩ <;> simp [hasPair, opensslArgs]

/-- C7 witness: instantiated on a fresh directory with a well-behaved tool. -/
theorem claim7_openssl_invocation_witness :
    bothCertsExist "/w" (fsFresh.makedirs CERT_DIR) = false ∧
    (Ev.toolRun (opensslArgs "/w") ∈ (ensure_cert genOk "/w" fsFresh).2 ∧
     (∀ args, Ev.toolRun args ∈ (ensure_cert genOk "/w" fsFresh).2 →
        args = opensslArgs "/w") ∧
     hasPair (opensslArgs "/w") "-newkey" "rsa:2048" ∧
     "-x509" ∈ opensslArgs "/w" ∧
     hasPair (opensslArgs "/w") "-days" "365" ∧
     "-nodes" ∈ opensslArgs "/w" ∧
     hasPair (opensslArgs "/w") "-subj" "/CN=localhost" ∧
     hasPair (opensslArgs "/w") "-keyout" (KEY_FILE "/w") ∧
     hasPair (opensslArgs "/w") "-out" (CERT_FILE "/w")) :=
  ⟨by rfl, claim7_openssl_invocation genOk "/w" fsFresh (by rfl)⟩

/-- C5: the provisioner's check is existence-only and generation is a single
step — the trace holds one tool invocation when either file is missing and
none when both exist, every invocation being the one openssl command line
that writes both files — and in every startup of `run` that creates the TCP
listener, both files exist in the filesystem state at listener creation. -/
theorem claim5_existence_only_check (gen : Gen) (cwd0 : String) (fs : FS) :
    (countToolRuns (ensure_cert gen cwd0 fs).2 =
      if bothCertsExist cwd0 (fs.makedirs CERT_DIR) then 0 else 1) ∧
    (∀ args, Ev.toolRun args ∈ (ensure_cert gen cwd0 fs).2 → args = opensslArgs cwd0) ∧
    (isAbs cwd0 = true →
      ∀ port bind serve up, ((run port gen cwd0 fs bind serve).1).up? = some up →
        up.fsAtListen.pathExists (CERT_FILE cwd0) = true ∧
        up.fsAtListen.pathExists (KEY_FILE cwd0) = true) := by
  refine ⟨(ensure_cert_toolRuns gen cwd0 fs).1, (ensure_cert_toolRuns gen cwd0 fs).2, ?_⟩
  intro habs port bind serve up h
  obtain ⟨fs2, evs, hec, -, hch, -, -, -, -, -, -⟩ := run_up_inv h
  have hex := ensure_cert_ok_exists hec
  rw [bothCertsExist, Bool.and_eq_true] at hex
  obtain ⟨hf, hd⟩ := chdir_ok_frame hch
  constructor
  · rw [pathExists_abs fs2 up.fsAtListen (CERT_FILE_isAbs cwd0 habs) hf hd]
    exact hex.1
  · rw [pathExists_abs fs2 up.fsAtListen (KEY_FILE_isAbs cwd0 habs) hf hd]
    exact hex.2

/-- C5 witness: a run from a directory that already has the pair makes no
tool call and reaches the listener with both files present. -/
theorem claim5_existence_only_witness :
    countToolRuns (ensure_cert genMissing "/w" fsHasCerts).2 = 0 ∧
    isAbs "/w" = true ∧
    ((run 8443 genMissing "/w" fsHasCerts .success .forever).1).up? = some upHasCerts ∧
    upHasCerts.fsAtListen.pathExists (CERT_FILE "/w") = true ∧
    upHasCerts.fsAtListen.pathExists (KEY_FILE "/w") = true := by
  have h := claim5_existence_only_check genMissing "/w" fsHasCerts
  refine ⟨by rw [h.1]; rfl, rfl, rfl, ?_, ?_⟩
  · exact (h.2.2 rfl 8443 .success .forever upHasCerts rfl).1
  · exact (h.2.2 rfl 8443 .success .forever upHasCerts rfl).2

/-- C6 (amended): after the provisioner returns, if a directory named `build`
is present the run changes into it, so the document root is that directory
and `/index.html` is served from `build/index.html`; if no entry named
`build` exists at all, the document root is the working directory. (The
original claim's "otherwise" is wrong when `build` exists as a plain file:
`os.path.exists` is then true and `os.chdir("build")` raises
NotADirectoryError, so the run dies instead of serving from the working
directory — see the counterexample.) -/
theorem claim6_document_root (port : Int) (gen : Gen) (cwd0 : String) (fs : FS)
    (bind : BindOutcome) (serve : ServeBehavior) (fs2 : FS) (evs : List Ev)
    (hec : ensure_cert gen cwd0 fs = (.ok fs2, evs)) :
    ((fs2.resolve "build") ∈ fs2.dirs →
      ∀ up, ((run port gen cwd0 fs bind serve).1).up? = some up →
        up.docRoot = fs2.resolve "build" ∧
        servedFile up.fsAtListen up.docRoot "/index.html" =
          fs2.files.lookup (fs2.resolve "build" ++ "/index.html")) ∧
    (fs2.pathExists "build" = false →
      ∀ up, ((run port gen cwd0 fs bind serve).1).up? = some up →
        up.docRoot = fs2.cwd ∧
        servedFile up.fsAtListen up.docRoot "/index.html" =
          fs2.files.lookup (fs2.cwd ++ "/index.html")) := by
  constructor
  · intro hdir up h
    obtain ⟨fs2', evs', hec', -, hch, -, -, -, -, hdoc, -⟩ := run_up_inv h
    rw [hec] at hec'
    simp only [Prod.mk.injEq, Except.ok.injEq] at hec'
    obtain ⟨hfs, -⟩ := hec'
    subst hfs
    have hc : fs2.dirs.contains (fs2.resolve "build") = true := by
      simpa using hdir
    have hpe : fs2.pathExists "build" = true := by
      simp only [FS.pathExists, hc, Bool.or_true]
    rw [hpe] at hch
    simp only [if_true] at hch
    rw [chdir_dir (by decide) hc] at hch
    injection hch with hup'
    have hup : up.fsAtListen = { fs2 with cwd := fs2.resolve "build" } := hup'.symm
    refine ⟨?_, ?_⟩
    · rw [hdoc, hup]
    · rw [hdoc, hup]
      simp [servedFile, translate_path]
  · intro hnb up h
    obtain ⟨fs2', evs', hec', -, hch, -, -, -, -, hdoc, -⟩ := run_up_inv h
    rw [hec] at hec'
    simp only [Prod.mk.injEq, Except.ok.injEq] at hec'
    obtain ⟨hfs, -⟩ := hec'
    subst hfs
    rw [hnb] at hch
    simp only [Bool.false_eq_true, if_false] at hch
    rw [chdir_dot] at hch
    injection hch with hup'
    have hup : up.fsAtListen = fs2 := hup'.symm
    refine ⟨?_, ?_⟩
    · rw [hdoc, hup]
    · rw [hdoc, hup]
      simp [servedFile, translate_path]

/-- C6 counterexample: `build` exists as a regular file (so no directory
named `build` is present); the claim says the document root then falls back
to the working directory and `/index.html` is served from it, but the run
dies with NotADirectoryError from `os.chdir("build")`, because the code tests
`os.path.exists`, not `os.path.isdir`. -/
theorem claim6_counterexample :
    (run 8443 genMissing "/w" fsBuildFile .success .forever).1 =
      .fatal (.unhandled "NotADirectoryError") ∧
    "/w/build" ∉ fsBuildFile.dirs ∧
    fsBuildFile.files.lookup "/w/build" = some [0] ∧
    fsBuildFile.files.lookup "/w/index.html" = some [7] := by
  refine ⟨rfl, by decide, rfl, rfl⟩

/-- C6 witness: with a `build` directory present whose `index.html` (bytes
`[42]`) differs from the working directory's copy (bytes `[7]`), the run
serves `/index.html` from `build/index.html`. -/
theorem claim6_document_root_witness :
    ensure_cert genMissing "/w" fsBuildDir =
      (.ok (fsBuildDir.makedirs CERT_DIR), [.mkdirs "/w/cert"]) ∧
    ((fsBuildDir.makedirs CERT_DIR).resolve "build") ∈
      (fsBuildDir.makedirs CERT_DIR).dirs ∧
    ((run 8443 genMissing "/w" fsBuildDir .success .forever).1).up? =
      some upBuildDir ∧
    (upBuildDir.docRoot = (fsBuildDir.makedirs CERT_DIR).resolve "build" ∧
     servedFile upBuildDir.fsAtListen upBuildDir.docRoot "/index.html" =
       (fsBuildDir.makedirs CERT_DIR).files.lookup
         ((fsBuildDir.makedirs CERT_DIR).resolve "build" ++ "/index.html")) ∧
    servedFile upBuildDir.fsAtListen upBuildDir.docRoot "/index.html" = some [42] ∧
    fsBuildDir.files.lookup "/w/index.html" = some [7] := by
  refine ⟨rfl, by decide, rfl, ?_, rfl, rfl⟩
  exact (claim6_document_root 8443 genMissing "/w" fsBuildDir .success .forever
    (fsBuildDir.makedirs CERT_DIR) [.mkdirs "/w/cert"] (by rfl)).1
    (by decide) upBuildDir (by rfl)

/-- C8: a KeyboardInterrupt while serving makes the process print the
shutdown notice and exit via `sys.exit(0)`; and an interrupt is the only way
any run of the server terminates with exit status 0 — every fatal path
(provisioning failure, chdir failure, bind failure) has a non-zero status,
and an uninterrupted server never terminates. -/
theorem claim8_interrupt_only_zero_exit (port : Int) (gen : Gen) (cwd0 : String)
    (fs : FS) (bind : BindOutcome) (serve : ServeBehavior) :
    (∀ up e, (run port gen cwd0 fs bind serve).1 = .stopped up e →
       e = .systemExit 0 ∧ serve = .interrupt ∧
       Ev.print "\n🛑 Server stopped." ∈ (run port gen cwd0 fs bind serve).2) ∧
    ((run port gen cwd0 fs bind serve).1.exitCode = some 0 →
       ∃ up, (run port gen cwd0 fs bind serve).1 = .stopped up (.systemExit 0) ∧
         serve = .interrupt) := by
  rcases hec : ensure_cert gen cwd0 fs with ⟨step, evs⟩
  cases step with
  | error e =>
    have hst : e.status = 1 := ensure_cert_error_status hec
    constructor
    · intro up e' h
      simp [run, hec] at h
    · intro h
      simp [run, hec, Outcome.exitCode, hst] at h
  | ok fs2 =>
    cases hch : fs2.chdir (if fs2.pathExists "build" then "build" else ".") with
    | error exc =>
      constructor
      · intro up e' h
        simp [run, hec, hch] at h
      · intro h
        simp [run, hec, hch, Outcome.exitCode, PyExit.status] at h
    | ok fs3 =>
      cases bind with
      | failure exc =>
        constructor
        · intro up e' h
          simp [run, hec, hch] at h
        · intro h
          simp [run, hec, hch, Outcome.exitCode, PyExit.status] at h
      | success =>
        cases serve with
        | forever =>
          constructor
          · intro up e' h
            simp [run, hec, hch] at h
          · intro h
            simp [run, hec, hch, Outcome.exitCode] at h
        | interrupt =>
          constructor
          · intro up e' h
            simp only [run, hec, hch, Outcome.stopped.injEq] at h
            refine ⟨h.2.symm, rfl, ?_⟩
            simp [run, hec, hch]
          · intro h
            exact ⟨{ host := "0.0.0.0", port := port, certfile := CERT_FILE cwd0,
                     keyfile := KEY_FILE cwd0, docRoot := fs3.cwd, fsAtListen := fs3 },
                   by simp [run, hec, hch], rfl⟩

/-- C8 witness: a concrete interrupted run stops with status 0 and prints
the notice. -/
theorem claim8_interrupt_witness :
    (run 8443 genMissing "/w" fsHasCerts .success .interrupt).1 =
      .stopped upHasCerts (.systemExit 0) ∧
    ((.systemExit 0 : PyExit) = .systemExit 0 ∧
     ServeBehavior.interrupt = .interrupt ∧
     Ev.print "\n🛑 Server stopped." ∈
       (run 8443 genMissing "/w" fsHasCerts .success .interrupt).2) :=
  ⟨rfl, (claim8_interrupt_only_zero_exit 8443 genMissing "/w" fsHasCerts
    .success .interrupt).1 upHasCerts (.systemExit 0) rfl⟩

/-- C9 (amended): besides `-p`/`--port`, the parser also accepts argparse's
automatic `-h`/`--help`, which prints usage and exits with status 0; any
other flag is a usage error. With the flag omitted the port is 8443; the
parsed port is whatever integer is supplied; the server binds the parsed
port on all interfaces (`0.0.0.0`). -/
theorem claim9_cli_port_flag :
    parse_args [] = .ok 8443 ∧
    (∀ s n, pyInt? s = some n →
      parse_args ["-p", s] = .ok n ∧ parse_args ["--port", s] = .ok n) ∧
    (∀ a, ¬(a = "-h") → ¬(a = "--help") → ¬(a = "-p") → ¬(a = "--port") →
      parse_args [a] = .usageError) ∧
    (∀ port gen cwd0 fs bind serve up,
      ((run port gen cwd0 fs bind serve).1).up? = some up →
      up.host = "0.0.0.0" ∧ up.port = port) := by
  refine ⟨rfl, ?_, ?_, ?_⟩
  · intro s n h
    constructor <;> simp [parse_args, parseLoop, h]
  · intro a h1 h2 h3 h4
    simp [parse_args, parseLoop, h1, h2, h3, h4]
  · intro port gen cwd0 fs bind serve up h
    obtain ⟨fs2, evs, -, -, -, hh, hp, -, -, -, -⟩ := run_up_inv h
    exact ⟨hh, hp⟩

/-- C9 counterexample: the CLI accepts a flag other than `-p`/`--port` —
argparse's automatically added help flag — and exits with status 0 on it, so
"accepts exactly one optional flag" is false as stated. -/
theorem claim9_counterexample :
    parse_args ["--help"] = .helpExit ∧
    parse_args ["-h"] = .helpExit ∧
    mainEntry ["--help"] genMissing "/w" fsFresh .success .forever = .usage 0 :=
  ⟨rfl, rfl, rfl⟩

/-- C9 witness: `-p 9000` and `--port 9000` parse to 9000, an unknown flag is
rejected, and a run that created the listener bound `0.0.0.0` on its port. -/
theorem claim9_cli_port_flag_witness :
    parse_args [] = .ok 8443 ∧
    pyInt? "9000" = some 9000 ∧
    parse_args ["-p", "9000"] = .ok 9000 ∧
    parse_args ["--port", "9000"] = .ok 9000 ∧
    parse_args ["-x"] = .usageError ∧
    upHasCerts.host = "0.0.0.0" ∧ upHasCerts.port = 8443 := by
  have h := claim9_cli_port_flag
  refine ⟨h.1, by rfl, (h.2.1 "9000" 9000 (by rfl)).1, (h.2.1 "9000" 9000 (by rfl)).2,
    h.2.2.1 "-x" (by decide) (by decide) (by decide) (by decide), ?_, ?_⟩
  · exact (h.2.2.2 8443 genMissing "/w" fsHasCerts .success .forever upHasCerts rfl).1
  · exact (h.2.2.2 8443 genMissing "/w" fsHasCerts .success .forever upHasCerts rfl).2

/-- C10: for every run that created the listener (from an absolute initial
working directory, as `os.getcwd` always yields), the TLS context is loaded
from exactly the module-level `CERT_FILE`/`KEY_FILE` paths — the same
absolute paths the provisioner checked or generated — both of which still
exist in the filesystem state at listener creation even after the change
into the document root; and the provisioner's events all precede the
directory change. -/
theorem claim10_fixed_cert_paths (port : Int) (gen : Gen) (cwd0 : String)
    (fs : FS) (bind : BindOutcome) (serve : ServeBehavior) (up : ServerUp)
    (habs : isAbs cwd0 = true)
    (h : ((run port gen cwd0 fs bind serve).1).up? = some up) :
    up.certfile = CERT_FILE cwd0 ∧ up.keyfile = KEY_FILE cwd0 ∧
    isAbs up.certfile = true ∧ isAbs up.keyfile = true ∧
    Ev.loadCertChain (CERT_FILE cwd0) (KEY_FILE cwd0) ∈
      (run port gen cwd0 fs bind serve).2 ∧
    up.fsAtListen.pathExists up.certfile = true ∧
    up.fsAtListen.pathExists up.keyfile = true ∧
    (∃ t evs2, (run port gen cwd0 fs bind serve).2 =
      (ensure_cert gen cwd0 fs).2 ++ Ev.chdirTo t :: evs2) := by
  obtain ⟨fs2, evs, hec, -, hch, -, -, hcf, hkf, -, evs2, htr, hld⟩ := run_up_inv h
  have hex := ensure_cert_ok_exists hec
  rw [bothCertsExist, Bool.and_eq_true] at hex
  obtain ⟨hf, hd⟩ := chdir_ok_frame hch
  refine ⟨hcf, hkf, ?_, ?_, ?_, ?_, ?_, ?_⟩
  · rw [hcf]
    exact CERT_FILE_isAbs cwd0 habs
  · rw [hkf]
    exact KEY_FILE_isAbs cwd0 habs
  · rw [htr]
    simp [hld]
  · rw [hcf, pathExists_abs fs2 up.fsAtListen (CERT_FILE_isAbs cwd0 habs) hf hd]
    exact hex.1
  · rw [hkf, pathExists_abs fs2 up.fsAtListen (KEY_FILE_isAbs cwd0 habs) hf hd]
    exact hex.2
  · refine ⟨if fs2.pathExists "build" then "build" else ".", evs2, ?_⟩
    rw [htr, hec]

/-- C10 witness: a run whose document root is the `build` directory still
loads the certificate pair from the startup-resolved absolute paths, which
exist at listen time. -/
theorem claim10_fixed_cert_paths_witness :
    isAbs "/w" = true ∧
    ((run 8443 genMissing "/w" fsBuildDir .success .forever).1).up? =
      some upBuildDir ∧
    (upBuildDir.certfile = CERT_FILE "/w" ∧ upBuildDir.keyfile = KEY_FILE "/w" ∧
     isAbs upBuildDir.certfile = true ∧ isAbs upBuildDir.keyfile = true ∧
     Ev.loadCertChain (CERT_FILE "/w") (KEY_FILE "/w") ∈
       (run 8443 genMissing "/w" fsBuildDir .success .forever).2 ∧
     upBuildDir.fsAtListen.pathExists upBuildDir.certfile = true ∧
     upBuildDir.fsAtListen.pathExists upBuildDir.keyfile = true ∧
     (∃ t evs2, (run 8443 genMissing "/w" fsBuildDir .success .forever).2 =
       (ensure_cert genMissing "/w" fsBuildDir).2 ++ Ev.chdirTo t :: evs2)) :=
  ⟨rfl, rfl, claim10_fixed_cert_paths 8443 genMissing "/w" fsBuildDir
    .success .forever upBuildDir rfl rfl⟩
